import Mathlib

/-!
Verification development for the Program Trader execution core
(strategy sandbox, decision schema validator, trigger scheduler)
and the chart moving-average helper of the frontend.

Numeric values are modelled as rationals (`Rat`); machine floating
point rounding is out of scope.
-/

/- ### Frontend chart data (src/unnamed/part_001) -/

/-- A candle as consumed by `calculateMA`: only `time` and `close`
are read by the function. -/
structure Candle where
  time : Int
  close : Rat
deriving DecidableEq, Repr

/-- A point of a moving-average series: `{ time, value }`. -/
structure MAPoint where
  time : Int
  value : Rat
deriving DecidableEq, Repr

/-- JavaScript `data.slice(a, b)` for `0 ≤ a ≤ b`. -/
def jsSlice (data : List Candle) (a b : Nat) : List Candle :=
  (data.drop a).take (b - a)

/-- Embedding of `calculateMA` (src/unnamed/part_001, lines 253-263):
`for (let i = period - 1; i < data.length; i++)` push
`{ time: data[i].time, value: sum / period }` where `sum` is
`data.slice(i - period + 1, i + 1).reduce((acc, item) => acc + item.close, 0)`.
The loop index set is `(List.range data.length).drop (period - 1)`;
for `i ≥ period - 1` and `period ≥ 1` the slice bound `i - period + 1`
equals `i + 1 - period` in natural-number arithmetic. -/
def calculateMA (data : List Candle) (period : Nat) : List MAPoint :=
  ((List.range data.length).drop (period - 1)).map (fun i =>
    { time := (data.getD i ⟨0, 0⟩).time,
      value := ((jsSlice data (i + 1 - period) (i + 1)).map Candle.close).foldl (· + ·) 0
                 / (period : Rat) })

/- ### Data model of the execution core.

The sandbox / validator / trigger-scheduler implementation is not shipped
under src/ (the repository holds only its tenant-facing documentation,
src/backend/HYPERLIQUID_UPGRADE_GUIDE.md and src/unnamed/part_000); the
definitions below are therefore modelled from the spec. -/

/-- Modelled from the spec: trigger kind of a `MarketContext` (spec section 3). -/
inductive TriggerType
  | signal
  | scheduled
deriving DecidableEq, Repr

/-- Modelled from the spec: AND/OR combination of a signal pool (spec section 3). -/
inductive PoolLogic
  | AND
  | OR
deriving DecidableEq, Repr

/-- Modelled from the spec: side of a position (spec section 3). -/
inductive Side
  | long
  | short
deriving DecidableEq, Repr

/-- Modelled from the spec: a standard-shape signal (spec section 3);
`current_value` and `condition_met` are computed at evaluation time. -/
structure Signal where
  signal_id : String
  signal_name : String
  metric : String
  time_window : String
  thresholdOp : String
  threshold : Rat
  current_value : Rat
  condition_met : Bool
deriving DecidableEq, Repr

/-- Modelled from the spec: regime classification attached to a signal
trigger (spec section 3). -/
structure RegimeInfo where
  regime : String
  confidence : Rat
  direction : String
  reason : String
deriving DecidableEq, Repr

/-- Modelled from the spec: an open position (spec section 3). -/
structure Position where
  symbol : String
  side : Side
  size : Rat
  entry_price : Rat
  unrealized_pnl : Rat
  leverage : Rat
  liquidation_price : Rat
  opened_at : Int
  holding_duration_seconds : Rat
deriving DecidableEq, Repr

/-- Modelled from the spec: an open order (spec section 3). -/
structure Order where
  order_id : String
  symbol : String
  side : String
  direction : String
  order_type : String
  size : Rat
  price : Rat
  trigger_price : Rat
  reduce_only : Bool
  timestamp : Int
deriving DecidableEq, Repr

/-- Modelled from the spec: a recent closed trade (spec section 3). -/
structure Trade where
  symbol : String
  side : Side
  size : Rat
  price : Rat
  timestamp : Int
  pnl : Rat
  close_time : Int
deriving DecidableEq, Repr

/-- Modelled from the spec: the immutable `MarketContext` handed to a
strategy (spec section 3).  `now` is the time-read primitive's value,
frozen to the instant the context was built (spec section 4.1). -/
structure MarketContext where
  trigger_symbol : String
  trigger_type : TriggerType
  signal_pool_name : String
  pool_logic : PoolLogic
  triggered_signals : List Signal
  regime_snapshot : Option RegimeInfo
  available_balance : Rat
  total_equity : Rat
  used_margin : Rat
  margin_usage_percent : Rat
  maintenance_margin : Rat
  max_leverage : Nat
  default_leverage : Nat
  positions : List (String × Position)
  open_orders : List Order
  recent_trades : List Trade
  now : Rat
deriving DecidableEq, Repr

/-- Modelled from the spec: the account-state part of a snapshot, produced
by the external Snapshot Builder (spec sections 2 and 3). -/
structure AccountSnapshot where
  available_balance : Rat
  total_equity : Rat
  used_margin : Rat
  margin_usage_percent : Rat
  maintenance_margin : Rat
  max_leverage : Nat
  default_leverage : Nat
  positions : List (String × Position)
  open_orders : List Order
  recent_trades : List Trade
deriving DecidableEq, Repr

/-- Modelled from the spec: context built for a scheduled trigger
(spec section 4.3): `trigger_type=scheduled`, `trigger_symbol=""`,
`triggered_signals=[]`, `regime_snapshot=None`, `signal_pool_name=""`. -/
def buildScheduledContext (acct : AccountSnapshot) (now : Rat) : MarketContext :=
  { trigger_symbol := ""
    trigger_type := .scheduled
    signal_pool_name := ""
    pool_logic := .AND
    triggered_signals := []
    regime_snapshot := none
    available_balance := acct.available_balance
    total_equity := acct.total_equity
    used_margin := acct.used_margin
    margin_usage_percent := acct.margin_usage_percent
    maintenance_margin := acct.maintenance_margin
    max_leverage := acct.max_leverage
    default_leverage := acct.default_leverage
    positions := acct.positions
    open_orders := acct.open_orders
    recent_trades := acct.recent_trades
    now := now }

/-- Modelled from the spec: context built on signal-pool satisfaction
(spec section 4.3): `trigger_type=signal`, `trigger_symbol` set to the
satisfying symbol, `triggered_signals` populated with every member
condition whose `condition_met` is true at that instant. -/
def buildSignalContext (acct : AccountSnapshot) (now : Rat) (poolName : String)
    (logic : PoolLogic) (sym : String) (conditions : List Signal)
    (regime : RegimeInfo) : MarketContext :=
  { trigger_symbol := sym
    trigger_type := .signal
    signal_pool_name := poolName
    pool_logic := logic
    triggered_signals := conditions.filter (·.condition_met)
    regime_snapshot := some regime
    available_balance := acct.available_balance
    total_equity := acct.total_equity
    used_margin := acct.used_margin
    margin_usage_percent := acct.margin_usage_percent
    maintenance_margin := acct.maintenance_margin
    max_leverage := acct.max_leverage
    default_leverage := acct.default_leverage
    positions := acct.positions
    open_orders := acct.open_orders
    recent_trades := acct.recent_trades
    now := now }

/- ### Decision Schema Validator (spec section 4.2) -/

/-- Modelled from the spec: the raw decision-shaped value returned by a
strategy, before validation (spec sections 3 and 4.2).  Every field is
optional at this stage; `validate` decides which must be present. -/
structure RawDecision where
  operation : Option String := none
  symbol : Option String := none
  target_portion_of_balance : Option Rat := none
  leverage : Option Rat := none
  max_price : Option Rat := none
  min_price : Option Rat := none
  time_in_force : Option String := none
  take_profit_price : Option Rat := none
  stop_loss_price : Option Rat := none
  tp_execution : Option String := none
  sl_execution : Option String := none
  reason : Option String := none
  trading_strategy : Option String := none
deriving DecidableEq, Repr

/-- Modelled from the spec: a validated decision carries the same wire
shape as the raw one (spec section 3); validation never rewrites fields. -/
abbrev Decision := RawDecision

/-- Modelled from the spec: validation fault taxonomy (spec section 7). -/
inductive ValidationFault
  | MissingField (field : String)
  | OutOfRange (field : String)
  | InvalidEnum (field : String)
  | InconsistentTpSl
deriving DecidableEq, Repr

/-- Modelled from the spec: check (3), the directional price bound
(`max_price` for buy / close-short, `min_price` for sell / close-long,
strictly positive).  For `close` the raw decision does not say which
side is being closed, so whichever bound is present is checked; on
success the bound used as the presumed entry price is returned. -/
def checkPriceBound (op : String) (raw : RawDecision) : Except ValidationFault Rat :=
  if op = "buy" then
    match raw.max_price with
    | none => .error (.MissingField "max_price")
    | some p => if 0 < p then .ok p else .error (.OutOfRange "max_price")
  else if op = "sell" then
    match raw.min_price with
    | none => .error (.MissingField "min_price")
    | some p => if 0 < p then .ok p else .error (.OutOfRange "min_price")
  else
    match raw.min_price, raw.max_price with
    | some p, _ => if 0 < p then .ok p else .error (.OutOfRange "min_price")
    | none, some p => if 0 < p then .ok p else .error (.OutOfRange "max_price")
    | none, none => .error (.MissingField "min_price")

/-- Modelled from the spec: check (4), take-profit / stop-loss
consistency when both are present, relative to the presumed entry
bound `b` (buy: `take_profit_price > b > stop_loss_price`; sell and
close mirror). -/
def checkTpSl (op : String) (b : Rat) (raw : RawDecision) : Except ValidationFault Unit :=
  match raw.take_profit_price, raw.stop_loss_price with
  | some tp, some sl =>
    if op = "buy" then
      if sl < b ∧ b < tp then .ok () else .error .InconsistentTpSl
    else
      if tp < b ∧ b < sl then .ok () else .error .InconsistentTpSl
  | _, _ => .ok ()

/-- Modelled from the spec: check (5), optional enumerated fields must
be members of their enumerations. -/
def checkEnums (raw : RawDecision) : Except ValidationFault Unit :=
  match raw.time_in_force with
  | some t =>
    if t = "IOC" ∨ t = "GTC" ∨ t = "ALO" then
      match raw.tp_execution with
      | some e =>
        if e = "market" ∨ e = "limit" then
          match raw.sl_execution with
          | some e2 =>
            if e2 = "market" ∨ e2 = "limit" then .ok ()
            else .error (.InvalidEnum "sl_execution")
          | none => .ok ()
        else .error (.InvalidEnum "tp_execution")
      | none =>
        match raw.sl_execution with
        | some e2 =>
          if e2 = "market" ∨ e2 = "limit" then .ok ()
          else .error (.InvalidEnum "sl_execution")
        | none => .ok ()
    else .error (.InvalidEnum "time_in_force")
  | none =>
    match raw.tp_execution with
    | some e =>
      if e = "market" ∨ e = "limit" then
        match raw.sl_execution with
        | some e2 =>
          if e2 = "market" ∨ e2 = "limit" then .ok ()
          else .error (.InvalidEnum "sl_execution")
        | none => .ok ()
      else .error (.InvalidEnum "tp_execution")
    | none =>
      match raw.sl_execution with
      | some e2 =>
        if e2 = "market" ∨ e2 = "limit" then .ok ()
        else .error (.InvalidEnum "sl_execution")
      | none => .ok ()

/-- Modelled from the spec: `validate(raw) -> Result<Decision, ValidationFault>`
(spec section 4.2).  Structural check first (`operation`, `symbol`
present, `operation` one of the four enumerated values); on `hold` only
`symbol` is required and all execution fields are ignored; otherwise
the semantic checks run in order, first failure wins: (1) portion
present and in [0.1, 1.0]; (2) leverage present, integer, in [1, 50];
(3) directional price bound; (4) TP/SL consistency; (5) enum fields. -/
def validate (raw : RawDecision) : Except ValidationFault Decision :=
  match raw.operation with
  | none => .error (.MissingField "operation")
  | some op =>
    if op = "buy" ∨ op = "sell" ∨ op = "hold" ∨ op = "close" then
      match raw.symbol with
      | none => .error (.MissingField "symbol")
      | some _ =>
        if op = "hold" then .ok raw
        else
          match raw.target_portion_of_balance with
          | none => .error (.MissingField "target_portion_of_balance")
          | some t =>
            if mkRat 1 10 ≤ t ∧ t ≤ 1 then
              match raw.leverage with
              | none => .error (.MissingField "leverage")
              | some l =>
                if l.den = 1 ∧ (1 : Rat) ≤ l ∧ l ≤ 50 then
                  match checkPriceBound op raw with
                  | .error f => .error f
                  | .ok b =>
                    match checkTpSl op b raw with
                    | .error f => .error f
                    | .ok _ =>
                      match checkEnums raw with
                      | .error f => .error f
                      | .ok _ => .ok raw
                else .error (.OutOfRange "leverage")
            else .error (.OutOfRange "target_portion_of_balance")
    else .error (.InvalidEnum "operation")

/- ### Strategy Sandbox (spec section 4.1) -/

/-- Modelled from the spec: sandbox fault taxonomy (spec section 7). -/
inductive SandboxFault
  | Timeout
  | Raised (msg : String)
  | CapabilityViolation
deriving DecidableEq, Repr

/-- Modelled from the spec: runtime values of the restricted strategy
VM (spec section 9 prescribes a restricted interpreter whose step count
is metered): numbers and strings. -/
inductive Val
  | num (q : Rat)
  | str (s : String)
deriving DecidableEq, Repr

/-- Modelled from the spec: the read-only numeric context fields a
strategy may read, including the frozen time-read primitive
(spec sections 4.1 and 3). -/
inductive CtxField
  | availableBalance
  | totalEquity
  | usedMargin
  | marginUsagePercent
  | maintenanceMargin
  | timeNow
deriving DecidableEq, Repr

/-- Modelled from the spec: reading a numeric context field; `timeNow`
returns the timestamp frozen at context construction, never re-read. -/
def readCtx (ctx : MarketContext) : CtxField → Rat
  | .availableBalance => ctx.available_balance
  | .totalEquity => ctx.total_equity
  | .usedMargin => ctx.used_margin
  | .marginUsagePercent => ctx.margin_usage_percent
  | .maintenanceMargin => ctx.maintenance_margin
  | .timeNow => ctx.now

/-- Modelled from the spec: expressions of the restricted VM — literals,
variables, context reads, and the whitelisted pure arithmetic
primitives. Division by zero and type confusion are runtime faults. -/
inductive Expr
  | lit (v : Val)
  | varE (x : String)
  | ctxRead (f : CtxField)
  | add (a b : Expr)
  | sub (a b : Expr)
  | mul (a b : Expr)
  | div (a b : Expr)
deriving DecidableEq, Repr

/-- Variable environment of one evaluation: each evaluation gets its own
fresh binding (spec section 4.1). -/
abbrev Env := List (String × Val)

/-- Look up a variable; reading an unbound name is a runtime fault. -/
def lookupVar : Env → String → Option Val
  | [], _ => none
  | (y, v) :: rest, x => if y = x then some v else lookupVar rest x

/-- Modelled from the spec: expression evaluation; any runtime fault
(type error, unbound name, division by zero) is reported as a raised
message, to surface at the sandbox boundary as `SandboxFault.Raised`. -/
def evalExpr (ctx : MarketContext) (env : Env) : Expr → Except String Val
  | .lit v => .ok v
  | .varE x =>
    match lookupVar env x with
    | some v => .ok v
    | none => .error ("name not defined: " ++ x)
  | .ctxRead f => .ok (.num (readCtx ctx f))
  | .add a b =>
    match evalExpr ctx env a, evalExpr ctx env b with
    | .ok (.num p), .ok (.num q) => .ok (.num (p + q))
    | .ok _, .ok _ => .error "type error: arithmetic on non-number"
    | .error m, _ => .error m
    | _, .error m => .error m
  | .sub a b =>
    match evalExpr ctx env a, evalExpr ctx env b with
    | .ok (.num p), .ok (.num q) => .ok (.num (p - q))
    | .ok _, .ok _ => .error "type error: arithmetic on non-number"
    | .error m, _ => .error m
    | _, .error m => .error m
  | .mul a b =>
    match evalExpr ctx env a, evalExpr ctx env b with
    | .ok (.num p), .ok (.num q) => .ok (.num (p * q))
    | .ok _, .ok _ => .error "type error: arithmetic on non-number"
    | .error m, _ => .error m
    | _, .error m => .error m
  | .div a b =>
    match evalExpr ctx env a, evalExpr ctx env b with
    | .ok (.num p), .ok (.num q) =>
      if q = 0 then .error "division by zero" else .ok (.num (p / q))
    | .ok _, .ok _ => .error "type error: arithmetic on non-number"
    | .error m, _ => .error m
    | _, .error m => .error m

/-- Modelled from the spec: a decision literal as written by a strategy;
each present field is an expression evaluated when the decision is
returned. -/
structure DecExpr where
  operation : Option Expr := none
  symbol : Option Expr := none
  target_portion_of_balance : Option Expr := none
  leverage : Option Expr := none
  max_price : Option Expr := none
  min_price : Option Expr := none
  time_in_force : Option Expr := none
  take_profit_price : Option Expr := none
  stop_loss_price : Option Expr := none
  tp_execution : Option Expr := none
  sl_execution : Option Expr := none
  reason : Option Expr := none
  trading_strategy : Option Expr := none
deriving DecidableEq, Repr

/-- Evaluate an optional string-valued decision field. -/
def evalOptStr (ctx : MarketContext) (env : Env) :
    Option Expr → Except String (Option String)
  | none => .ok none
  | some e =>
    match evalExpr ctx env e with
    | .ok (.str s) => .ok (some s)
    | .ok (.num _) => .error "type error: expected string field"
    | .error m => .error m

/-- Evaluate an optional numeric decision field. -/
def evalOptNum (ctx : MarketContext) (env : Env) :
    Option Expr → Except String (Option Rat)
  | none => .ok none
  | some e =>
    match evalExpr ctx env e with
    | .ok (.num q) => .ok (some q)
    | .ok (.str _) => .error "type error: expected numeric field"
    | .error m => .error m

/-- Evaluate a decision literal to a `RawDecision`, propagating the
first runtime fault. -/
def evalDecExpr (ctx : MarketContext) (env : Env) (d : DecExpr) :
    Except String RawDecision := do
  let operation ← evalOptStr ctx env d.operation
  let symbol ← evalOptStr ctx env d.symbol
  let target_portion_of_balance ← evalOptNum ctx env d.target_portion_of_balance
  let leverage ← evalOptNum ctx env d.leverage
  let max_price ← evalOptNum ctx env d.max_price
  let min_price ← evalOptNum ctx env d.min_price
  let time_in_force ← evalOptStr ctx env d.time_in_force
  let take_profit_price ← evalOptNum ctx env d.take_profit_price
  let stop_loss_price ← evalOptNum ctx env d.stop_loss_price
  let tp_execution ← evalOptStr ctx env d.tp_execution
  let sl_execution ← evalOptStr ctx env d.sl_execution
  let reason ← evalOptStr ctx env d.reason
  let trading_strategy ← evalOptStr ctx env d.trading_strategy
  return { operation, symbol, target_portion_of_balance, leverage,
           max_price, min_price, time_in_force, take_profit_price,
           stop_loss_price, tp_execution, sl_execution, reason,
           trading_strategy }

/-- Modelled from the spec: statements of the restricted VM.  `raiseS`
stands for any uncaught exception inside the strategy body; `ret`
returns the decision-shaped value; `logS` is the bounded logging
primitive (its only effect is outside control flow). -/
inductive Stmt
  | skip
  | assign (x : String) (e : Expr)
  | seq (a b : Stmt)
  | ite (c : Expr) (t e : Stmt)
  | while (c : Expr) (body : Stmt)
  | raiseS (msg : String)
  | ret (d : DecExpr)
  | logS (e : Expr)
deriving DecidableEq, Repr

/-- Outcome of running a statement under a step budget. -/
inductive ExecResult
  | timeout
  | raised (msg : String)
  | done (env : Env)
  | returned (raw : RawDecision)
deriving DecidableEq, Repr

/-- Truthiness of a condition value: a number is true iff nonzero;
branching on a string is a type error. -/
def truthy : Val → Except String Bool
  | .num q => .ok (q ≠ 0)
  | .str _ => .error "type error: condition is not a number"

/-- Modelled from the spec: the metered big-step interpreter of the
sandbox (spec sections 4.1 and 9).  Every step consumes budget; an
exhausted budget is a `timeout`, so arbitrary tenant loops cannot make
the interpreter run unboundedly. -/
def execStmt : Nat → MarketContext → Env → Stmt → ExecResult
  | 0, _, _, _ => .timeout
  | _ + 1, _, env, .skip => .done env
  | _ + 1, ctx, env, .assign x e =>
    match evalExpr ctx env e with
    | .ok v => .done ((x, v) :: env)
    | .error m => .raised m
  | n + 1, ctx, env, .seq a b =>
    match execStmt n ctx env a with
    | .done env2 => execStmt n ctx env2 b
    | r => r
  | n + 1, ctx, env, .ite c t e =>
    match evalExpr ctx env c with
    | .ok v =>
      match truthy v with
      | .ok true => execStmt n ctx env t
      | .ok false => execStmt n ctx env e
      | .error m => .raised m
    | .error m => .raised m
  | n + 1, ctx, env, .while c body =>
    match evalExpr ctx env c with
    | .ok v =>
      match truthy v with
      | .ok true =>
        match execStmt n ctx env body with
        | .done env2 => execStmt n ctx env2 (.while c body)
        | r => r
      | .ok false => .done env
      | .error m => .raised m
    | .error m => .raised m
  | _ + 1, _, _, .raiseS msg => .raised msg
  | _ + 1, ctx, env, .ret d =>
    match evalDecExpr ctx env d with
    | .ok raw => .returned raw
    | .error m => .raised m
  | _ + 1, ctx, env, .logS e =>
    match evalExpr ctx env e with
    | .ok _ => .done env
    | .error m => .raised m

/-- Modelled from the spec:
`evaluate(strategy, context, budget) -> Result<RawDecision, SandboxFault>`
(spec section 4.1).  The wall-clock/instruction budget is the step
budget of the metered interpreter; exhausting it yields
`SandboxFault.Timeout`; every fault raised inside the body is caught
here and reported as `SandboxFault.Raised`; a strategy that finishes
without returning a decision is a raised fault as well. -/
def evaluate (budget : Nat) (ctx : MarketContext) (prog : Stmt) :
    Except SandboxFault RawDecision :=
  match execStmt budget ctx [] prog with
  | .timeout => .error .Timeout
  | .raised m => .error (.Raised m)
  | .returned raw => .ok raw
  | .done _ => .error (.Raised "strategy returned no decision")

/-- The intentionally unbounded loop `while 1: pass` used by the
timeout-determinism property (spec section 8). -/
def loopForever : Stmt :=
  .while (.lit (.num 1)) .skip

/- ### Trigger Scheduler (spec section 4.3) -/

/-- Human-readable reason string of a sandbox fault, recorded for
observability (spec section 7). -/
def faultMessage : SandboxFault → String
  | .Timeout => "sandbox fault: timeout"
  | .Raised m => "sandbox fault: raised: " ++ m
  | .CapabilityViolation => "sandbox fault: capability violation"

/-- Human-readable reason string of a validation fault, carrying the
offending field (spec sections 4.2 and 7). -/
def vfaultMessage : ValidationFault → String
  | .MissingField f => "validation fault: missing field: " ++ f
  | .OutOfRange f => "validation fault: out of range: " ++ f
  | .InvalidEnum f => "validation fault: invalid enum: " ++ f
  | .InconsistentTpSl => "validation fault: inconsistent take-profit/stop-loss"

/-- Modelled from the spec: the synthesized safe-default `hold` decision
substituted on any fault, carrying the fault reason in its `reason`
field (spec sections 2 and 7). -/
def synthHold (sym : String) (why : String) : Decision :=
  { operation := some "hold", symbol := some sym, reason := some why }

/-- Modelled from the spec: how the Trigger Scheduler resolves one
trigger (spec sections 2 and 7): run the sandbox, validate the raw
result; on success forward the validated decision, on any sandbox or
validation fault substitute the synthesized `hold`.  Faults never
propagate past this boundary. -/
def resolveTrigger (budget : Nat) (ctx : MarketContext) (prog : Stmt) : Decision :=
  match evaluate budget ctx prog with
  | .error f => synthHold ctx.trigger_symbol (faultMessage f)
  | .ok raw =>
    match validate raw with
    | .ok d => d
    | .error vf => synthHold ctx.trigger_symbol (vfaultMessage vf)

/-- Modelled from the spec: per-(account, strategy) scheduler states
(spec section 4.3): `Idle -> Evaluating -> Idle or Suspended`. -/
inductive PairState
  | Idle
  | Evaluating
  | Suspended
deriving DecidableEq, Repr

/-- Modelled from the spec: the scheduler's bookkeeping for one
(account, strategy) pair: its state, the consecutive-fault count, and
the number of evaluations started so far (for stating the coalescing
property). -/
structure PairRecord where
  state : PairState
  faultCount : Nat
  evalCount : Nat
deriving DecidableEq, Repr

/-- Modelled from the spec: trigger arrival for a pair (spec
section 4.3).  From `Idle` the evaluation starts; while `Evaluating`
the trigger is coalesced/dropped, never queued; while `Suspended`
nothing runs until manual reactivation.  The boolean reports whether
an evaluation was started. -/
def onTrigger (r : PairRecord) : PairRecord × Bool :=
  match r.state with
  | .Idle => ({ r with state := .Evaluating, evalCount := r.evalCount + 1 }, true)
  | .Evaluating => (r, false)
  | .Suspended => (r, false)

/-- Modelled from the spec: evaluation completion for a pair (spec
sections 4.3 and 7): a clean completion resets the consecutive-fault
count; a fault increments it (a capability violation counts double);
after `suspendAfter` consecutive faults the pair is suspended. -/
def onComplete (suspendAfter : Nat) (r : PairRecord)
    (fault : Option SandboxFault) : PairRecord :=
  match fault with
  | none => { r with state := .Idle, faultCount := 0 }
  | some f =>
    let inc := match f with
      | .CapabilityViolation => 2
      | _ => 1
    let c := r.faultCount + inc
    { r with
      state := if suspendAfter ≤ c then .Suspended else .Idle
      faultCount := c }

/- ### Candle store (spec section 6) -/

/-- A candle record returned by the candle lookup:
`{timestamp, open, high, low, close, volume}` (spec section 6).
`open` is a Lean keyword, hence the field name `open_`. -/
structure Kline where
  timestamp : Int
  open_ : Rat
  high : Rat
  low : Rat
  close : Rat
  volume : Rat
deriving DecidableEq, Repr

/-- Modelled from the spec: the candle lookup `get_klines` keyed by
`(symbol, period, count)` (spec section 6); the store holds the raw
series for that key in unspecified order, and the lookup returns the
`count` most recent candles as an oldest-to-newest ordered sequence. -/
def get_klines (store : List Kline) (count : Nat) : List Kline :=
  let sorted := store.insertionSort (fun a b => a.timestamp ≤ b.timestamp)
  sorted.drop (sorted.length - count)

/- ### Concrete sample inputs -/

/-- A small concrete account snapshot. -/
def sampleAcct : AccountSnapshot :=
  { available_balance := 10000
    total_equity := 10000
    used_margin := 0
    margin_usage_percent := 0
    maintenance_margin := 0
    max_leverage := 50
    default_leverage := 10
    positions := []
    open_orders := []
    recent_trades := [] }

/-- A concrete scheduled-trigger context. -/
def sampleCtx : MarketContext := buildScheduledContext sampleAcct 1700000000

/-- Three concrete candles for the moving-average witness. -/
def dsample : List Candle := [⟨100, 10⟩, ⟨200, 20⟩, ⟨300, 30⟩]

/- ### C10 -/

/-- C10: for every candle array `data` and period `p` with
`1 ≤ p ≤ data.length`, `calculateMA data p` returns exactly
`data.length - p + 1` points; the `j`-th point has `time` equal to
`data[p - 1 + j].time` and `value` equal to the arithmetic mean of the
`close` fields of `data[j], ..., data[p - 1 + j]`; when
`p > data.length` it returns the empty array. -/
theorem calculateMA_points (data : List Candle) (p : Nat) (h1 : 1 ≤ p) :
    (p ≤ data.length →
      (calculateMA data p).length = data.length - p + 1 ∧
      ∀ j, (hj : j < (calculateMA data p).length) →
        ((calculateMA data p).get ⟨j, hj⟩).time = (data.getD (p - 1 + j) ⟨0, 0⟩).time ∧
        ((calculateMA data p).get ⟨j, hj⟩).value =
          (((data.drop j).take p).map Candle.close).sum / (p : Rat)) ∧
    (data.length < p → calculateMA data p = []) := by
  constructor
  · intro h2
    have hlen : (calculateMA data p).length = data.length - p + 1 := by
      simp only [calculateMA, List.length_map, List.length_drop, List.length_range]
      omega
    refine ⟨hlen, ?_⟩
    intro j hj
    have hj' : j < data.length - (p - 1) := by
      simpa [calculateMA] using hj
    have hget : (calculateMA data p).get ⟨j, hj⟩ =
        { time := (data.getD (p - 1 + j) ⟨0, 0⟩).time,
          value := ((jsSlice data (p - 1 + j + 1 - p) (p - 1 + j + 1)).map
                      Candle.close).foldl (· + ·) 0 / (p : Rat) } := by
      simp [calculateMA, List.get_eq_getElem]
    rw [hget]
    have e1 : p - 1 + j + 1 - p = j := by omega
    have e2 : p - 1 + j + 1 - j = p := by omega
    constructor
    · rfl
    · show ((jsSlice data (p - 1 + j + 1 - p) (p - 1 + j + 1)).map
          Candle.close).foldl (· + ·) 0 / (p : Rat) = _
      rw [e1]
      unfold jsSlice
      rw [e2, List.sum_eq_foldl]
  · intro h2
    have hlen0 : (calculateMA data p).length = 0 := by
      simp only [calculateMA, List.length_map, List.length_drop, List.length_range]
      omega
    exact List.eq_nil_of_length_eq_zero hlen0

/-- Witness for C10 at `dsample` and period 2. -/
theorem calculateMA_points_witness :
    1 ≤ 2 ∧ 2 ≤ dsample.length ∧
    (calculateMA dsample 2).length = dsample.length - 2 + 1 :=
  ⟨by decide, by decide, ((calculateMA_points dsample 2 (by decide)).1 (by decide)).1⟩

/- ### More concrete sample inputs for witnesses -/

/-- The Scenario D raw decision: `buy` with `leverage = 75` (spec section 8). -/
def scenarioD : RawDecision :=
  { operation := some "buy"
    symbol := some "BTC"
    target_portion_of_balance := some (mkRat 2 10)
    leverage := some 75
    max_price := some 100 }

/-- A strategy program whose body returns the Scenario D decision. -/
def scenarioDProg : Stmt :=
  .ret { operation := some (.lit (.str "buy"))
         symbol := some (.lit (.str "BTC"))
         target_portion_of_balance := some (.lit (.num (mkRat 2 10)))
         leverage := some (.lit (.num 75))
         max_price := some (.lit (.num 100)) }

/-- A well-formed `buy` decision (Scenario B shape, spec section 8). -/
def goodBuy : RawDecision :=
  { operation := some "buy"
    symbol := some "BTC"
    target_portion_of_balance := some (mkRat 2 10)
    leverage := some 5
    max_price := some 100 }

/-- A `hold` decision with nonsensical execution fields. -/
def holdJunk : RawDecision :=
  { operation := some "hold"
    symbol := some "BTC"
    target_portion_of_balance := some 999
    leverage := some (mkRat (-7) 2)
    max_price := some (-5)
    min_price := some 0
    time_in_force := some "banana"
    take_profit_price := some 1
    stop_loss_price := some 1
    tp_execution := some "yolo"
    sl_execution := some "nope" }

/-- A pair record in the `Idle` state. -/
def idleRec : PairRecord := ⟨.Idle, 0, 0⟩

/-- Three concrete candles stored out of order. -/
def kstore : List Kline :=
  [⟨300, 1, 1, 1, 1, 1⟩, ⟨100, 1, 1, 1, 1, 1⟩, ⟨200, 1, 1, 1, 1, 1⟩]

/- ### C7 -/

/-- C7: for every scheduled trigger, the `MarketContext` handed to the
strategy has `trigger_type = scheduled`, `trigger_symbol` equal to the
empty string, `triggered_signals` equal to the empty sequence, and
`regime_snapshot` absent; by contrast the signal-trigger builder is the
one that produces `trigger_type = signal` with a present
`regime_snapshot`. -/
theorem scheduled_trigger_context (acct : AccountSnapshot) (now : Rat) :
    (buildScheduledContext acct now).trigger_type = TriggerType.scheduled ∧
    (buildScheduledContext acct now).trigger_symbol = "" ∧
    (buildScheduledContext acct now).triggered_signals = [] ∧
    (buildScheduledContext acct now).regime_snapshot = none ∧
    (∀ a n pn lg sym conds rg,
      (buildSignalContext a n pn lg sym conds rg).trigger_type = TriggerType.signal ∧
      (buildSignalContext a n pn lg sym conds rg).regime_snapshot = some rg) :=
  ⟨rfl, rfl, rfl, rfl, fun _ _ _ _ _ _ _ => ⟨rfl, rfl⟩⟩

/-- Witness for C7 at the concrete sample account. -/
theorem scheduled_trigger_context_witness :
    (buildScheduledContext sampleAcct 1700000000).trigger_type = TriggerType.scheduled ∧
    (buildScheduledContext sampleAcct 1700000000).trigger_symbol = "" :=
  ⟨(scheduled_trigger_context sampleAcct 1700000000).1,
   (scheduled_trigger_context sampleAcct 1700000000).2.1⟩

/- ### C6 -/

/-- C6: while a (account, strategy) pair is `Evaluating`, every new
trigger for that pair is coalesced/dropped rather than queued (the
record is left unchanged and no evaluation starts), so firing two
triggers from `Idle` while the first evaluation is still running
results in exactly one started evaluation, never two. -/
theorem evaluation_coalescing :
    (∀ r : PairRecord, r.state = PairState.Evaluating → onTrigger r = (r, false)) ∧
    (∀ r : PairRecord, r.state = PairState.Idle →
      (onTrigger r).1.state = PairState.Evaluating ∧
      (onTrigger r).1.evalCount = r.evalCount + 1 ∧
      (onTrigger ((onTrigger r).1)).1 = (onTrigger r).1 ∧
      (onTrigger ((onTrigger r).1)).2 = false) := by
  constructor
  · intro r h
    simp [onTrigger, h]
  · intro r h
    simp [onTrigger, h]

/-- Witness for C6 at a concrete `Idle` record. -/
theorem evaluation_coalescing_witness :
    idleRec.state = PairState.Idle ∧
    (onTrigger ((onTrigger idleRec).1)).1 = (onTrigger idleRec).1 ∧
    (onTrigger ((onTrigger idleRec).1)).2 = false ∧
    (onTrigger idleRec).1.evalCount = idleRec.evalCount + 1 :=
  ⟨rfl, (evaluation_coalescing.2 idleRec rfl).2.2.1,
   (evaluation_coalescing.2 idleRec rfl).2.2.2,
   (evaluation_coalescing.2 idleRec rfl).2.1⟩

/- ### C5 -/

/-- C5: strategy evaluation is deterministic: evaluating the same
strategy under the same budget against two structurally identical
`MarketContext` values yields identical results (decision or fault);
the time-read primitive returns the value frozen at context build time
and is independent of the evaluation state, so repeated reads agree. -/
theorem evaluation_deterministic (budget : Nat) (prog : Stmt)
    (ctx1 ctx2 : MarketContext) (h : ctx1 = ctx2) :
    evaluate budget ctx1 prog = evaluate budget ctx2 prog ∧
    (∀ env : Env, evalExpr ctx1 env (Expr.ctxRead CtxField.timeNow) =
      Except.ok (Val.num ctx1.now)) ∧
    (∀ env env2 : Env, evalExpr ctx1 env (Expr.ctxRead CtxField.timeNow) =
      evalExpr ctx1 env2 (Expr.ctxRead CtxField.timeNow)) := by
  subst h
  exact ⟨rfl, fun _ => rfl, fun _ _ => rfl⟩

/-- Witness for C5 at the concrete sample context. -/
theorem evaluation_deterministic_witness :
    sampleCtx = sampleCtx ∧
    evaluate 3 sampleCtx loopForever = evaluate 3 sampleCtx loopForever :=
  ⟨rfl, (evaluation_deterministic 3 loopForever sampleCtx sampleCtx rfl).1⟩

/- ### C2 -/

/-- The unbounded loop exhausts any step budget. -/
theorem execStmt_loopForever (budget : Nat) :
    ∀ (ctx : MarketContext) (env : Env),
      execStmt budget ctx env loopForever = ExecResult.timeout := by
  induction budget with
  | zero => intro ctx env; rfl
  | succ n ih =>
    intro ctx env
    cases n with
    | zero => rfl
    | succ m =>
      have step : execStmt (m + 1 + 1) ctx env loopForever
          = execStmt (m + 1) ctx env loopForever := rfl
      rw [step]
      exact ih ctx env

/-- C2: the sandbox aborts any execution that exhausts the
instruction/step budget with `SandboxFault.Timeout` (and only those),
and in particular a strategy built around an unbounded loop yields
`SandboxFault.Timeout` under every budget; `evaluate` is a total
function, so the worker never hangs. -/
theorem sandbox_timeout_total :
    (∀ (budget : Nat) (ctx : MarketContext) (prog : Stmt),
      execStmt budget ctx ([] : Env) prog = ExecResult.timeout ↔
      evaluate budget ctx prog = Except.error SandboxFault.Timeout) ∧
    (∀ (budget : Nat) (ctx : MarketContext),
      evaluate budget ctx loopForever = Except.error SandboxFault.Timeout) := by
  constructor
  · intro budget ctx prog
    constructor
    · intro h
      unfold evaluate
      rw [h]
    · intro h
      cases hx : execStmt budget ctx ([] : Env) prog with
      | timeout => rfl
      | raised m => simp [evaluate, hx] at h
      | done e => simp [evaluate, hx] at h
      | returned r => simp [evaluate, hx] at h
  · intro budget ctx
    unfold evaluate
    rw [execStmt_loopForever budget ctx ([] : Env)]

/-- Witness for C2: the unbounded loop times out under a concrete
budget in the concrete sample context. -/
theorem sandbox_timeout_total_witness :
    evaluate 5 sampleCtx loopForever = Except.error SandboxFault.Timeout :=
  sandbox_timeout_total.2 5 sampleCtx

/- ### C1 -/

/-- C1: a fault raised inside the strategy body surfaces at the sandbox
boundary as `SandboxFault.Raised` with the fault message; the Trigger
Scheduler always resolves a trigger to either the validated decision or
a synthesized `hold`, and every synthesized `hold` carries the fault
reason in its `reason` field — so faults never propagate past the
scheduler boundary. -/
theorem sandbox_fault_isolation :
    (∀ (budget : Nat) (ctx : MarketContext) (msg : String), 1 ≤ budget →
      evaluate budget ctx (Stmt.raiseS msg) = Except.error (SandboxFault.Raised msg)) ∧
    (∀ (budget : Nat) (ctx : MarketContext) (prog : Stmt),
      (∃ raw, evaluate budget ctx prog = Except.ok raw ∧
        validate raw = Except.ok (resolveTrigger budget ctx prog)) ∨
      (∃ f, evaluate budget ctx prog = Except.error f ∧
        resolveTrigger budget ctx prog = synthHold ctx.trigger_symbol (faultMessage f)) ∨
      (∃ raw vf, evaluate budget ctx prog = Except.ok raw ∧
        validate raw = Except.error vf ∧
        resolveTrigger budget ctx prog = synthHold ctx.trigger_symbol (vfaultMessage vf))) ∧
    (∀ sym why, (synthHold sym why).operation = some "hold" ∧
      (synthHold sym why).reason = some why) := by
  refine ⟨?_, ?_, fun _ _ => ⟨rfl, rfl⟩⟩
  · intro budget ctx msg h
    obtain ⟨n, rfl⟩ : ∃ n, budget = n + 1 := ⟨budget - 1, by omega⟩
    rfl
  · intro budget ctx prog
    cases he : evaluate budget ctx prog with
    | error f =>
      right; left
      exact ⟨f, rfl, by simp [resolveTrigger, he]⟩
    | ok raw =>
      cases hv : validate raw with
      | ok d =>
        left
        have hr : resolveTrigger budget ctx prog = d := by
          simp [resolveTrigger, he, hv]
        rw [hr]
        exact ⟨raw, rfl, hv⟩
      | error vf =>
        right; right
        exact ⟨raw, vf, rfl, hv, by simp [resolveTrigger, he, hv]⟩

/-- Witness for C1: a concrete raising strategy under budget 1. -/
theorem sandbox_fault_isolation_witness :
    1 ≤ 1 ∧ evaluate 1 sampleCtx (Stmt.raiseS "boom") =
      Except.error (SandboxFault.Raised "boom") :=
  ⟨by decide, sandbox_fault_isolation.1 1 sampleCtx "boom" (by decide)⟩

/- ### C4 -/

/-- C4: on every validation failure the fault carries the offending
field, the scheduler substitutes a synthesized `hold` instead of
correcting the input; in particular the Scenario D `buy` decision with
`leverage = 75` is rejected with `OutOfRange "leverage"` and any
strategy producing it resolves to the synthesized `hold`. -/
theorem validation_fault_fallback :
    (∀ (budget : Nat) (ctx : MarketContext) (prog : Stmt)
        (raw : RawDecision) (vf : ValidationFault),
      evaluate budget ctx prog = Except.ok raw → validate raw = Except.error vf →
      resolveTrigger budget ctx prog = synthHold ctx.trigger_symbol (vfaultMessage vf) ∧
      (resolveTrigger budget ctx prog).operation = some "hold") ∧
    validate scenarioD = Except.error (ValidationFault.OutOfRange "leverage") ∧
    (∀ (budget : Nat) (ctx : MarketContext) (prog : Stmt),
      evaluate budget ctx prog = Except.ok scenarioD →
      resolveTrigger budget ctx prog =
        synthHold ctx.trigger_symbol (vfaultMessage (ValidationFault.OutOfRange "leverage"))) := by
  refine ⟨?_, rfl, ?_⟩
  · intro budget ctx prog raw vf he hv
    have hr : resolveTrigger budget ctx prog =
        synthHold ctx.trigger_symbol (vfaultMessage vf) := by
      simp [resolveTrigger, he, hv]
    exact ⟨hr, by rw [hr]; rfl⟩
  · intro budget ctx prog he
    simp only [resolveTrigger, he]
    rfl

/-- Witness for C4: a concrete strategy returning the Scenario D
decision; the scheduler substitutes the synthesized `hold`. -/
theorem validation_fault_fallback_witness :
    evaluate 1 sampleCtx scenarioDProg = Except.ok scenarioD ∧
    resolveTrigger 1 sampleCtx scenarioDProg =
      synthHold sampleCtx.trigger_symbol
        (vfaultMessage (ValidationFault.OutOfRange "leverage")) :=
  ⟨rfl, validation_fault_fallback.2.2 1 sampleCtx scenarioDProg rfl⟩

/- ### C3 -/

/-- Every accepted decision is returned unchanged, and unless it is a
`hold` its portion and leverage passed the range checks. -/
theorem validate_ok_shape (raw : RawDecision) (d : Decision)
    (h : validate raw = Except.ok d) :
    d = raw ∧ (raw.operation = some "hold" ∨
      ((∃ t, raw.target_portion_of_balance = some t ∧ mkRat 1 10 ≤ t ∧ t ≤ 1) ∧
       (∃ l, raw.leverage = some l ∧ l.den = 1 ∧ (1 : Rat) ≤ l ∧ l ≤ 50))) := by
  unfold validate at h
  split at h
  · exact Except.noConfusion h
  · rename_i op hop
    split at h
    · split at h
      · exact Except.noConfusion h
      · rename_i sym hsym
        split at h
        · rename_i hhold
          injection h with h
          subst hhold
          exact ⟨h.symm, Or.inl hop⟩
        · split at h
          · exact Except.noConfusion h
          · rename_i t ht
            split at h
            · rename_i hrange
              split at h
              · exact Except.noConfusion h
              · rename_i l hl
                split at h
                · rename_i hlev
                  split at h
                  · exact Except.noConfusion h
                  · split at h
                    · exact Except.noConfusion h
                    · split at h
                      · exact Except.noConfusion h
                      · injection h with h
                        exact ⟨h.symm,
                          Or.inr ⟨⟨t, ht, hrange.1, hrange.2⟩,
                            ⟨l, hl, hlev.1, hlev.2.1, hlev.2.2⟩⟩⟩
                · exact Except.noConfusion h
            · exact Except.noConfusion h
    · exact Except.noConfusion h

/-- C3: every decision the validator accepts with operation `buy`,
`sell` or `close` has `target_portion_of_balance` present in
[0.1, 1.0] (0.1 is `mkRat 1 10`) and `leverage` present, integral, in
[1, 50]; the accepted decision equals the input (nothing is clamped or
defaulted); and every input whose operation is `buy`, `sell` or `close`
violating these bounds is rejected with a `ValidationFault`. -/
theorem validated_decision_bounds :
    (∀ (raw : RawDecision) (d : Decision) (op : String),
      validate raw = Except.ok d → d.operation = some op →
      (op = "buy" ∨ op = "sell" ∨ op = "close") →
      d = raw ∧
      (∃ t, d.target_portion_of_balance = some t ∧ mkRat 1 10 ≤ t ∧ t ≤ 1) ∧
      (∃ l, d.leverage = some l ∧ l.den = 1 ∧ (1 : Rat) ≤ l ∧ l ≤ 50)) ∧
    (∀ (raw : RawDecision) (op : String),
      raw.operation = some op → (op = "buy" ∨ op = "sell" ∨ op = "close") →
      ¬((∃ t, raw.target_portion_of_balance = some t ∧ mkRat 1 10 ≤ t ∧ t ≤ 1) ∧
        (∃ l, raw.leverage = some l ∧ l.den = 1 ∧ (1 : Rat) ≤ l ∧ l ≤ 50)) →
      ∃ f, validate raw = Except.error f) := by
  constructor
  · intro raw d op hv hop hcase
    obtain ⟨hdr, hrest⟩ := validate_ok_shape raw d hv
    subst hdr
    cases hrest with
    | inl hh =>
      rw [hop] at hh
      injection hh with hh
      rcases hcase with rfl | rfl | rfl <;> exact absurd hh (by decide)
    | inr hok =>
      exact ⟨rfl, hok.1, hok.2⟩
  · intro raw op hop hcase hviol
    cases hv : validate raw with
    | error f => exact ⟨f, rfl⟩
    | ok d =>
      exfalso
      obtain ⟨hdr, hrest⟩ := validate_ok_shape raw d hv
      cases hrest with
      | inl hh =>
        rw [hop] at hh
        injection hh with hh
        rcases hcase with rfl | rfl | rfl <;> exact absurd hh (by decide)
      | inr hok => exact hviol hok

/-- Witness for C3: the accepted Scenario-B-shaped `buy` decision. -/
theorem validated_decision_bounds_witness :
    validate goodBuy = Except.ok goodBuy ∧
    ("buy" = "buy" ∨ "buy" = "sell" ∨ "buy" = "close") ∧
    (∃ t, goodBuy.target_portion_of_balance = some t ∧ mkRat 1 10 ≤ t ∧ t ≤ 1) ∧
    (∃ l, goodBuy.leverage = some l ∧ l.den = 1 ∧ (1 : Rat) ≤ l ∧ l ≤ 50) :=
  ⟨rfl, Or.inl rfl,
   (validated_decision_bounds.1 goodBuy goodBuy "buy" rfl rfl (Or.inl rfl)).2.1,
   (validated_decision_bounds.1 goodBuy goodBuy "buy" rfl rfl (Or.inl rfl)).2.2⟩

/- ### C8 -/

/-- C8: for every raw decision with operation `hold` and a present
`symbol`, validation succeeds and returns the decision unchanged — no
execution-field constraint is checked, whatever values those fields
hold. -/
theorem hold_requires_only_symbol (raw : RawDecision) (s : String)
    (hop : raw.operation = some "hold") (hsym : raw.symbol = some s) :
    validate raw = Except.ok raw := by
  unfold validate
  rw [hop, hsym]
  rfl

/-- Witness for C8: the `hold` decision carrying nonsensical execution
fields is accepted. -/
theorem hold_requires_only_symbol_witness :
    holdJunk.operation = some "hold" ∧ holdJunk.symbol = some "BTC" ∧
    validate holdJunk = Except.ok holdJunk :=
  ⟨rfl, rfl, hold_requires_only_symbol holdJunk "BTC" rfl rfl⟩

/- ### C9 -/

instance : IsTotal Kline (fun a b => a.timestamp ≤ b.timestamp) :=
  ⟨fun a b => Int.le_total a.timestamp b.timestamp⟩

instance : IsTrans Kline (fun a b => a.timestamp ≤ b.timestamp) :=
  ⟨fun _ _ _ h1 h2 => le_trans h1 h2⟩

/-- The candle lookup result is sorted by timestamp. -/
theorem get_klines_sorted_aux (store : List Kline) (count : Nat) :
    (get_klines store count).Sorted (fun a b => a.timestamp ≤ b.timestamp) := by
  unfold get_klines
  exact List.Pairwise.sublist (List.drop_sublist _ _)
    (List.sorted_insertionSort (fun a b : Kline => a.timestamp ≤ b.timestamp) store)

/-- C9: the candle lookup returns an oldest-to-newest ordered sequence:
for every pair of adjacent elements of the result, the earlier
element's timestamp is at most the later element's timestamp. -/
theorem get_klines_ordered (store : List Kline) (count i : Nat)
    (h : i + 1 < (get_klines store count).length) :
    ((get_klines store count).get ⟨i, Nat.lt_of_succ_lt h⟩).timestamp ≤
    ((get_klines store count).get ⟨i + 1, h⟩).timestamp := by
  exact (get_klines_sorted_aux store count).rel_get_of_lt
    (by simp [Fin.lt_def])

/-- Witness for C9: a concrete out-of-order store of three candles. -/
theorem get_klines_ordered_witness :
    0 + 1 < (get_klines kstore 3).length ∧
    ((get_klines kstore 3).get ⟨0, by decide⟩).timestamp ≤
      ((get_klines kstore 3).get ⟨1, by decide⟩).timestamp :=
  ⟨by decide, get_klines_ordered kstore 3 0 (by decide)⟩
